import Mathlib

/-!
Shallow embedding of the uniform/resource-binding subsystem of
`src/uniforms/bind.rs` (the glium uniform binder), together with proofs of
the specified properties of its texture-unit resolver, block binders and
dispatcher.

Conventions of the embedding:
* GLuint handles (texture ids, sampler ids) are `Nat`; GLint locations are
  `Int` (the source asserts nonnegativity before use).
* The stateful GPU context is passed explicitly; every GL / program call the
  source issues is recorded in a `List GlCall` trace.
* `panic` / failed `assert!` / `.expect(..)` in the source are modelled by the
  `Res.fatal` outcome carrying the panic message; recoverable `Err(DrawError)`
  by `Res.err`, which also carries the state as mutated up to the error point
  (the source mutates the caller's context in place).
* Payloads that the binder merely forwards (f32 scalars, vectors, matrices)
  are opaque `Nat` tokens: the binder never inspects them, it wraps them 1:1
  into the matching `RawUniformValue` constructor.
-/

set_option maxRecDepth 8000

namespace GliumBind

/-- A texture unit's session state: the currently bound texture id and sampler
id. `Default::default()` in the source is texture 0, sampler 0 (nothing
bound). Mirrors the `TextureUnit` entries of `ctxt.state.texture_units`. -/
structure TextureUnit where
  texture : Nat
  sampler : Nat
deriving DecidableEq, Repr

/-- `Default::default()` for a texture unit. -/
def TextureUnit.dflt : TextureUnit := ⟨0, 0⟩

/-- The GLenum texture targets that the 45 texture variants of `UniformValue`
collapse to (`gl::TEXTURE_1D`, `gl::TEXTURE_2D`, ...). -/
inductive TextureTarget where
  | texture1d
  | texture2d
  | texture3d
  | texture1dArray
  | texture2dArray
  | texture2dMultisample
  | texture2dMultisampleArray
deriving DecidableEq, Repr

/-- `RawUniformValue`: the raw values handed to `program.set_uniform`.
Float/vector/matrix payloads are opaque tokens (see module docstring). -/
inductive RawUniformValue where
  | SignedInt (v : Int)
  | UnsignedInt (v : Nat)
  | Float (v : Nat)
  | Mat2 (v : Nat)
  | Mat3 (v : Nat)
  | Mat4 (v : Nat)
  | Vec2 (v : Nat)
  | Vec3 (v : Nat)
  | Vec4 (v : Nat)
deriving DecidableEq, Repr

/-- Every state-changing GL / program call the binder can issue, recorded as a
trace event.  `SetUniform` is `program.set_uniform`; `ActiveTexture`,
`BindTexture`, `BindSampler` are the raw GL calls of `bind_texture_uniform`;
the buffer events are the two-step block binds. -/
inductive GlCall where
  | SetUniform (location : Int) (value : RawUniformValue)
  | ActiveTexture (unit : Nat)
  | BindTexture (target : TextureTarget) (texture : Nat)
  | BindSampler (unit : Nat) (sampler : Nat)
  | BindBufferUniform (buffer : Nat) (bindPoint : Nat)
  | BindBufferSharedStorage (buffer : Nat) (bindPoint : Nat)
  | SetUniformBlockBinding (binding : Nat) (bindPoint : Nat)
  | SetSharedStorageBlockBinding (binding : Nat) (bindPoint : Nat)
deriving DecidableEq, Repr

/-- The recoverable error taxonomy of the binder (the `DrawError` variants
produced in `bind.rs`).  Uniform types are opaque `Nat` tokens. -/
inductive DrawError where
  | UniformTypeMismatch (name : String) (expected : Nat)
  | UniformBlockLayoutMismatch (name : String)
  | UniformValueToBlock (name : String)
  | UniformBufferToValue (name : String)
deriving DecidableEq, Repr

/-- Outcome of a binder step: success, recoverable error (carrying the state
as mutated so far — the source mutates in place), or a fatal panic/assertion
with its message. -/
inductive Res (α : Type) where
  | ok (a : α)
  | err (e : DrawError) (a : α)
  | fatal (msg : String)
deriving DecidableEq, Repr

/-- Modelled from the spec: the `Bitsfield` of `utils/bitsfield.rs` (not under
`src/`): "a fixed-capacity set of binding-slot indices in {used, free};
capacity bounded by a queried hardware limit … `get_unused` returns the
lowest-index free slot or signals exhaustion."  `used` is the set of indices
currently marked used. -/
structure Bitsfield where
  capacity : Nat
  used : List Nat
deriving DecidableEq, Repr

/-- Modelled from the spec: a fresh bitsfield (all slots free) for a pool of
`cap` slots. -/
def Bitsfield.new (cap : Nat) : Bitsfield := ⟨cap, []⟩

/-- Modelled from the spec: whether slot `i` is marked used. -/
def Bitsfield.is_used (b : Bitsfield) (i : Nat) : Bool := b.used.contains i

/-- Modelled from the spec: mark slot `i` used. -/
def Bitsfield.set_used (b : Bitsfield) (i : Nat) : Bitsfield :=
  ⟨b.capacity, i :: b.used⟩

/-- Scan slots `i, i+1, …` (`fuel` of them) for the first slot not marked
used. -/
def first_unused (used : List Nat) : Nat → Nat → Option Nat
  | 0, _ => none
  | fuel + 1, i => if used.contains i then first_unused used fuel (i + 1) else some i

/-- Modelled from the spec: "`get_unused` returns the lowest-index free slot
or signals exhaustion" — the least free index below `capacity`, or `none`. -/
def Bitsfield.get_unused (b : Bitsfield) : Option Nat :=
  first_unused b.used b.capacity 0

/-- Modelled from the spec: the Sampler Cache (`sampler_object.rs`, not under
`src/`): "mapping from SamplerBehavior to created sampler resource handle …
entries are never evicted".  `SamplerBehavior` descriptors are opaque `Nat`
tokens (value-comparable); created handles are nonzero (`next_handle` starts
above 0, since handle 0 means "no sampler"). -/
structure SamplerCache where
  entries : List (Nat × Nat)
  next_handle : Nat
deriving DecidableEq, Repr

/-- Modelled from the spec: `::sampler_object::get_sampler` — resolve a
`SamplerBehavior` to a sampler handle, creating and caching it on first
use. -/
def get_sampler (cache : SamplerCache) (behavior : Nat) : Nat × SamplerCache :=
  match cache.entries.lookup behavior with
  | some h => (h, cache)
  | none =>
      (cache.next_handle,
       ⟨(behavior, cache.next_handle) :: cache.entries, cache.next_handle + 1⟩)

/-- Lines 412-418 of `bind.rs`: an absent sampler behavior resolves to handle
0, a present one goes through the cache. -/
def resolve_sampler (cache : SamplerCache) (behavior : Option Nat) : Nat × SamplerCache :=
  match behavior with
  | some b => get_sampler cache b
  | none => (0, cache)

/-- The queried hardware limits (`ctxt.capabilities`).
`max_combined_texture_image_units` is the texture-unit limit the resolver
checks against; `max_buffer_bind_points` is (modelled from the spec) the size
of the buffer bind-point pools, whose exact value is external to `src/`. -/
structure Capabilities where
  max_combined_texture_image_units : Nat
  max_buffer_bind_points : Nat
deriving DecidableEq, Repr

/-- The mutable session GL state the binder reads and writes
(`ctxt.state.texture_units` — the Session Texture-Unit Table — and
`ctxt.state.active_texture`). -/
structure GlState where
  texture_units : List TextureUnit
  active_texture : Nat
deriving DecidableEq, Repr

/-- The command context: session state, capabilities, and the version /
extension flags consulted by the sampler-support assertion
(`ctxt.version >= &Version(Api::Gl, 3, 3) || ctxt.extensions.gl_arb_sampler_objects`). -/
structure Context where
  state : GlState
  capabilities : Capabilities
  version_ge_gl_3_3 : Bool
  gl_arb_sampler_objects : Bool
deriving DecidableEq, Repr

/-- A buffer resource as seen through the `BufferViewExt` interface
(`get_offset_bytes`, `add_fence`, the two prepare-and-bind calls): an opaque
id, its sub-range offset, and the optional fence handle `add_fence`
returns. -/
structure Buffer where
  id : Nat
  offset_bytes : Nat
  fence : Option Nat
deriving DecidableEq, Repr

/-- A reflected uniform block (`program::UniformBlock`): its binding index and
an opaque token for its reflected layout (what the layout-check closure
inspects). -/
structure UniformBlock where
  binding : Nat
  layout_info : Nat
deriving DecidableEq, Repr

/-- A reflected plain uniform: type token, location, optional array size. -/
structure Uniform where
  ty : Nat
  location : Int
  size : Option Nat
deriving DecidableEq, Repr

/-- The reflection data consumed through `ProgramExt`: `get_uniform`,
`get_uniform_blocks`, `get_shader_storage_blocks`, as association lists. -/
structure Program where
  uniforms : List (String × Uniform)
  uniform_blocks : List (String × UniformBlock)
  shader_storage_blocks : List (String × UniformBlock)

/-- `program.get_uniform(name)`. -/
def Program.get_uniform (p : Program) (name : String) : Option Uniform :=
  p.uniforms.lookup name

/-- `UniformValue` of `uniforms/value.rs`, as matched by `bind_uniform`
(lines 178-400 of `bind.rs`), in source order.  Texture variants carry the
texture's id (the source calls `texture.get_id()` on an object reference) and
the optional `SamplerBehavior` token.  `Block` carries the buffer and the
layout-check closure. -/
inductive UniformValue where
  | Block (buffer : Buffer) (layout : UniformBlock → Bool)
  | SignedInt (v : Int)
  | UnsignedInt (v : Nat)
  | Float (v : Nat)
  | Mat2 (v : Nat)
  | Mat3 (v : Nat)
  | Mat4 (v : Nat)
  | Vec2 (v : Nat)
  | Vec3 (v : Nat)
  | Vec4 (v : Nat)
  | Texture1d (texture : Nat) (sampler : Option Nat)
  | CompressedTexture1d (texture : Nat) (sampler : Option Nat)
  | SrgbTexture1d (texture : Nat) (sampler : Option Nat)
  | CompressedSrgbTexture1d (texture : Nat) (sampler : Option Nat)
  | IntegralTexture1d (texture : Nat) (sampler : Option Nat)
  | UnsignedTexture1d (texture : Nat) (sampler : Option Nat)
  | DepthTexture1d (texture : Nat) (sampler : Option Nat)
  | Texture2d (texture : Nat) (sampler : Option Nat)
  | CompressedTexture2d (texture : Nat) (sampler : Option Nat)
  | SrgbTexture2d (texture : Nat) (sampler : Option Nat)
  | CompressedSrgbTexture2d (texture : Nat) (sampler : Option Nat)
  | IntegralTexture2d (texture : Nat) (sampler : Option Nat)
  | UnsignedTexture2d (texture : Nat) (sampler : Option Nat)
  | DepthTexture2d (texture : Nat) (sampler : Option Nat)
  | Texture2dMultisample (texture : Nat) (sampler : Option Nat)
  | SrgbTexture2dMultisample (texture : Nat) (sampler : Option Nat)
  | IntegralTexture2dMultisample (texture : Nat) (sampler : Option Nat)
  | UnsignedTexture2dMultisample (texture : Nat) (sampler : Option Nat)
  | DepthTexture2dMultisample (texture : Nat) (sampler : Option Nat)
  | Texture3d (texture : Nat) (sampler : Option Nat)
  | CompressedTexture3d (texture : Nat) (sampler : Option Nat)
  | SrgbTexture3d (texture : Nat) (sampler : Option Nat)
  | CompressedSrgbTexture3d (texture : Nat) (sampler : Option Nat)
  | IntegralTexture3d (texture : Nat) (sampler : Option Nat)
  | UnsignedTexture3d (texture : Nat) (sampler : Option Nat)
  | DepthTexture3d (texture : Nat) (sampler : Option Nat)
  | Texture1dArray (texture : Nat) (sampler : Option Nat)
  | CompressedTexture1dArray (texture : Nat) (sampler : Option Nat)
  | SrgbTexture1dArray (texture : Nat) (sampler : Option Nat)
  | CompressedSrgbTexture1dArray (texture : Nat) (sampler : Option Nat)
  | IntegralTexture1dArray (texture : Nat) (sampler : Option Nat)
  | UnsignedTexture1dArray (texture : Nat) (sampler : Option Nat)
  | DepthTexture1dArray (texture : Nat) (sampler : Option Nat)
  | Texture2dArray (texture : Nat) (sampler : Option Nat)
  | CompressedTexture2dArray (texture : Nat) (sampler : Option Nat)
  | SrgbTexture2dArray (texture : Nat) (sampler : Option Nat)
  | CompressedSrgbTexture2dArray (texture : Nat) (sampler : Option Nat)
  | IntegralTexture2dArray (texture : Nat) (sampler : Option Nat)
  | UnsignedTexture2dArray (texture : Nat) (sampler : Option Nat)
  | DepthTexture2dArray (texture : Nat) (sampler : Option Nat)
  | Texture2dMultisampleArray (texture : Nat) (sampler : Option Nat)
  | SrgbTexture2dMultisampleArray (texture : Nat) (sampler : Option Nat)
  | IntegralTexture2dMultisampleArray (texture : Nat) (sampler : Option Nat)
  | UnsignedTexture2dMultisampleArray (texture : Nat) (sampler : Option Nat)
  | DepthTexture2dMultisampleArray (texture : Nat) (sampler : Option Nat)

/-- The predicate of the `find` on lines 424-427: a table entry `content` at
index `unit` qualifies when its bound texture equals the requested one and
either its bound sampler already equals the resolved one, or the index has not
yet been reserved in this pass's bitsfield. -/
def unit_ok (bp : Bitsfield) (texture sampler : Nat) (content : TextureUnit) (unit : Nat) : Prop :=
  content.texture = texture ∧ (content.sampler = sampler ∨ bp.is_used unit = false)

instance (bp : Bitsfield) (texture sampler : Nat) (content : TextureUnit) (unit : Nat) :
    Decidable (unit_ok bp texture sampler content unit) := by
  unfold unit_ok; infer_instance

/-- Lines 422-428: `ctxt.state.texture_units.iter().enumerate().find(..)`,
rendered as a structural recursion carrying the running index. -/
def scan_units (texture sampler : Nat) (bp : Bitsfield) :
    List TextureUnit → Nat → Option Nat
  | [], _ => none
  | content :: rest, unit =>
      if unit_ok bp texture sampler content unit then some unit
      else scan_units texture sampler bp rest (unit + 1)

/-- Lines 421-440: the full texture-unit choice — the scan, then
`.or_else(append-at-length-if-below-limit)`, then
`.unwrap_or_else(get_unused)`.  `none` means the final `get_unused` was
exhausted, which the source turns into the
"Not enough texture units available" panic. -/
def find_texture_unit (units : List TextureUnit) (max_units : Nat)
    (texture sampler : Nat) (bp : Bitsfield) : Option Nat :=
  match scan_units texture sampler bp units 0 with
  | some unit => some unit
  | none =>
      if units.length < max_units then some units.length
      else bp.get_unused

/-- Lines 450-454: extend the session table with `Default::default()` entries
until it covers index `unit`. -/
def extend_units (units : List TextureUnit) (unit : Nat) : List TextureUnit :=
  if units.length ≤ unit then
    units ++ List.replicate (unit + 1 - units.length) TextureUnit.dflt
  else units

/-- The result of a successful `bind_texture_uniform`: the updated context,
sampler cache and bitsfield, the issued call trace, and (exposed for
specification) the chosen `texture_unit`. -/
structure TexBindOut where
  ctxt : Context
  samplers : SamplerCache
  texture_bind_points : Bitsfield
  calls : List GlCall
  unit : Nat
deriving DecidableEq, Repr

/-- `bind_texture_uniform` (lines 403-480): resolve the sampler through the
cache, choose the texture unit (`find_texture_unit`), assert it is below
`max_combined_texture_image_units`, reserve it, program the uniform location
with it, extend the session table if needed, and synchronize active unit /
bound texture / bound sampler when the entry differs (asserting
sampler-object support before `BindSampler`).  Branches are the source's
`!=` conditions with the equal/unequal arms swapped. -/
def bind_texture_uniform (ctxt : Context) (samplers0 : SamplerCache)
    (texture : Nat) (sampler_behavior : Option Nat) (location : Int)
    (texture_bind_points : Bitsfield) (target : TextureTarget) : Res TexBindOut :=
  let sampler := (resolve_sampler samplers0 sampler_behavior).1
  let samplers := (resolve_sampler samplers0 sampler_behavior).2
  match find_texture_unit ctxt.state.texture_units
      ctxt.capabilities.max_combined_texture_image_units texture sampler
      texture_bind_points with
  | none => Res.fatal "Not enough texture units available"
  | some texture_unit =>
    if texture_unit < ctxt.capabilities.max_combined_texture_image_units then
      let bp := texture_bind_points.set_used texture_unit
      let units := extend_units ctxt.state.texture_units texture_unit
      let content := units.getD texture_unit TextureUnit.dflt
      if content.texture = texture ∧ content.sampler = sampler then
        Res.ok ⟨{ ctxt with state := { ctxt.state with texture_units := units } },
                samplers, bp,
                [GlCall.SetUniform location (RawUniformValue.SignedInt texture_unit)],
                texture_unit⟩
      else
        let activeCalls :=
          if ctxt.state.active_texture = texture_unit then []
          else [GlCall.ActiveTexture texture_unit]
        let active :=
          if ctxt.state.active_texture = texture_unit then ctxt.state.active_texture
          else texture_unit
        let texCalls :=
          if content.texture = texture then []
          else [GlCall.BindTexture target texture]
        let units1 :=
          if content.texture = texture then units
          else units.set texture_unit { content with texture := texture }
        let content1 := units1.getD texture_unit TextureUnit.dflt
        if content1.sampler = sampler then
          Res.ok ⟨{ ctxt with state := { texture_units := units1, active_texture := active } },
                  samplers, bp,
                  GlCall.SetUniform location (RawUniformValue.SignedInt texture_unit)
                    :: (activeCalls ++ texCalls),
                  texture_unit⟩
        else if ctxt.version_ge_gl_3_3 || ctxt.gl_arb_sampler_objects then
          Res.ok ⟨{ ctxt with state :=
                    { texture_units := units1.set texture_unit { content1 with sampler := sampler },
                      active_texture := active } },
                  samplers, bp,
                  GlCall.SetUniform location (RawUniformValue.SignedInt texture_unit)
                    :: (activeCalls ++ texCalls ++ [GlCall.BindSampler texture_unit sampler]),
                  texture_unit⟩
        else Res.fatal "sampler objects not supported"
    else Res.fatal "assertion failed: texture_unit < max_combined_texture_image_units"

/-- The state a `bind_uniform` step reads and writes: context, sampler cache,
the pass's texture bitsfield, plus the call trace it issued. -/
structure UniformBindState where
  ctxt : Context
  samplers : SamplerCache
  texture_bind_points : Bitsfield
  calls : List GlCall
deriving DecidableEq, Repr

/-- Glue: forget the exposed `unit` field of a texture-bind result. -/
def drop_unit : Res TexBindOut → Res UniformBindState
  | Res.ok s => Res.ok ⟨s.ctxt, s.samplers, s.texture_bind_points, s.calls⟩
  | Res.err e s => Res.err e ⟨s.ctxt, s.samplers, s.texture_bind_points, s.calls⟩
  | Res.fatal m => Res.fatal m

/-- `bind_uniform` (lines 170-401): assert the location is nonnegative, then
dispatch on the value kind — `Block` is a `UniformBufferToValue` error, plain
raw values map 1:1 into `program.set_uniform`, and each of the 45 texture
variants routes to `bind_texture_uniform` with its target tag. -/
def bind_uniform (ctxt : Context) (samplers : SamplerCache) (value : UniformValue)
    (location : Int) (texture_bind_points : Bitsfield) (name : String) :
    Res UniformBindState :=
  if location < 0 then Res.fatal "assertion failed: location >= 0" else
  match value with
  | UniformValue.Block _ _ =>
      Res.err (DrawError.UniformBufferToValue name) ⟨ctxt, samplers, texture_bind_points, []⟩
  | UniformValue.SignedInt v =>
      Res.ok ⟨ctxt, samplers, texture_bind_points,
              [GlCall.SetUniform location (RawUniformValue.SignedInt v)]⟩
  | UniformValue.UnsignedInt v =>
      Res.ok ⟨ctxt, samplers, texture_bind_points,
              [GlCall.SetUniform location (RawUniformValue.UnsignedInt v)]⟩
  | UniformValue.Float v =>
      Res.ok ⟨ctxt, samplers, texture_bind_points,
              [GlCall.SetUniform location (RawUniformValue.Float v)]⟩
  | UniformValue.Mat2 v =>
      Res.ok ⟨ctxt, samplers, texture_bind_points,
              [GlCall.SetUniform location (RawUniformValue.Mat2 v)]⟩
  | UniformValue.Mat3 v =>
      Res.ok ⟨ctxt, samplers, texture_bind_points,
              [GlCall.SetUniform location (RawUniformValue.Mat3 v)]⟩
  | UniformValue.Mat4 v =>
      Res.ok ⟨ctxt, samplers, texture_bind_points,
              [GlCall.SetUniform location (RawUniformValue.Mat4 v)]⟩
  | UniformValue.Vec2 v =>
      Res.ok ⟨ctxt, samplers, texture_bind_points,
              [GlCall.SetUniform location (RawUniformValue.Vec2 v)]⟩
  | UniformValue.Vec3 v =>
      Res.ok ⟨ctxt, samplers, texture_bind_points,
              [GlCall.SetUniform location (RawUniformValue.Vec3 v)]⟩
  | UniformValue.Vec4 v =>
      Res.ok ⟨ctxt, samplers, texture_bind_points,
              [GlCall.SetUniform location (RawUniformValue.Vec4 v)]⟩
  | UniformValue.Texture1d texture sampler =>
      drop_unit (bind_texture_uniform ctxt samplers texture sampler location texture_bind_points TextureTarget.texture1d)
  | UniformValue.CompressedTexture1d texture sampler =>
      drop_unit (bind_texture_uniform ctxt samplers texture sampler location texture_bind_points TextureTarget.texture1d)
  | UniformValue.SrgbTexture1d texture sampler =>
      drop_unit (bind_texture_uniform ctxt samplers texture sampler location texture_bind_points TextureTarget.texture1d)
  | UniformValue.CompressedSrgbTexture1d texture sampler =>
      drop_unit (bind_texture_uniform ctxt samplers texture sampler location texture_bind_points TextureTarget.texture1d)
  | UniformValue.IntegralTexture1d texture sampler =>
      drop_unit (bind_texture_uniform ctxt samplers texture sampler location texture_bind_points TextureTarget.texture1d)
  | UniformValue.UnsignedTexture1d texture sampler =>
      drop_unit (bind_texture_uniform ctxt samplers texture sampler location texture_bind_points TextureTarget.texture1d)
  | UniformValue.DepthTexture1d texture sampler =>
      drop_unit (bind_texture_uniform ctxt samplers texture sampler location texture_bind_points TextureTarget.texture1d)
  | UniformValue.Texture2d texture sampler =>
      drop_unit (bind_texture_uniform ctxt samplers texture sampler location texture_bind_points TextureTarget.texture2d)
  | UniformValue.CompressedTexture2d texture sampler =>
      drop_unit (bind_texture_uniform ctxt samplers texture sampler location texture_bind_points TextureTarget.texture2d)
  | UniformValue.SrgbTexture2d texture sampler =>
      drop_unit (bind_texture_uniform ctxt samplers texture sampler location texture_bind_points TextureTarget.texture2d)
  | UniformValue.CompressedSrgbTexture2d texture sampler =>
      drop_unit (bind_texture_uniform ctxt samplers texture sampler location texture_bind_points TextureTarget.texture2d)
  | UniformValue.IntegralTexture2d texture sampler =>
      drop_unit (bind_texture_uniform ctxt samplers texture sampler location texture_bind_points TextureTarget.texture2d)
  | UniformValue.UnsignedTexture2d texture sampler =>
      drop_unit (bind_texture_uniform ctxt samplers texture sampler location texture_bind_points TextureTarget.texture2d)
  | UniformValue.DepthTexture2d texture sampler =>
      drop_unit (bind_texture_uniform ctxt samplers texture sampler location texture_bind_points TextureTarget.texture2d)
  | UniformValue.Texture2dMultisample texture sampler =>
      drop_unit (bind_texture_uniform ctxt samplers texture sampler location texture_bind_points TextureTarget.texture2dMultisample)
  | UniformValue.SrgbTexture2dMultisample texture sampler =>
      drop_unit (bind_texture_uniform ctxt samplers texture sampler location texture_bind_points TextureTarget.texture2dMultisample)
  | UniformValue.IntegralTexture2dMultisample texture sampler =>
      drop_unit (bind_texture_uniform ctxt samplers texture sampler location texture_bind_points TextureTarget.texture2dMultisample)
  | UniformValue.UnsignedTexture2dMultisample texture sampler =>
      drop_unit (bind_texture_uniform ctxt samplers texture sampler location texture_bind_points TextureTarget.texture2dMultisample)
  | UniformValue.DepthTexture2dMultisample texture sampler =>
      drop_unit (bind_texture_uniform ctxt samplers texture sampler location texture_bind_points TextureTarget.texture2dMultisample)
  | UniformValue.Texture3d texture sampler =>
      drop_unit (bind_texture_uniform ctxt samplers texture sampler location texture_bind_points TextureTarget.texture3d)
  | UniformValue.CompressedTexture3d texture sampler =>
      drop_unit (bind_texture_uniform ctxt samplers texture sampler location texture_bind_points TextureTarget.texture3d)
  | UniformValue.SrgbTexture3d texture sampler =>
      drop_unit (bind_texture_uniform ctxt samplers texture sampler location texture_bind_points TextureTarget.texture3d)
  | UniformValue.CompressedSrgbTexture3d texture sampler =>
      drop_unit (bind_texture_uniform ctxt samplers texture sampler location texture_bind_points TextureTarget.texture3d)
  | UniformValue.IntegralTexture3d texture sampler =>
      drop_unit (bind_texture_uniform ctxt samplers texture sampler location texture_bind_points TextureTarget.texture3d)
  | UniformValue.UnsignedTexture3d texture sampler =>
      drop_unit (bind_texture_uniform ctxt samplers texture sampler location texture_bind_points TextureTarget.texture3d)
  | UniformValue.DepthTexture3d texture sampler =>
      drop_unit (bind_texture_uniform ctxt samplers texture sampler location texture_bind_points TextureTarget.texture3d)
  | UniformValue.Texture1dArray texture sampler =>
      drop_unit (bind_texture_uniform ctxt samplers texture sampler location texture_bind_points TextureTarget.texture1dArray)
  | UniformValue.CompressedTexture1dArray texture sampler =>
      drop_unit (bind_texture_uniform ctxt samplers texture sampler location texture_bind_points TextureTarget.texture1dArray)
  | UniformValue.SrgbTexture1dArray texture sampler =>
      drop_unit (bind_texture_uniform ctxt samplers texture sampler location texture_bind_points TextureTarget.texture1dArray)
  | UniformValue.CompressedSrgbTexture1dArray texture sampler =>
      drop_unit (bind_texture_uniform ctxt samplers texture sampler location texture_bind_points TextureTarget.texture1dArray)
  | UniformValue.IntegralTexture1dArray texture sampler =>
      drop_unit (bind_texture_uniform ctxt samplers texture sampler location texture_bind_points TextureTarget.texture1dArray)
  | UniformValue.UnsignedTexture1dArray texture sampler =>
      drop_unit (bind_texture_uniform ctxt samplers texture sampler location texture_bind_points TextureTarget.texture1dArray)
  | UniformValue.DepthTexture1dArray texture sampler =>
      drop_unit (bind_texture_uniform ctxt samplers texture sampler location texture_bind_points TextureTarget.texture1dArray)
  | UniformValue.Texture2dArray texture sampler =>
      drop_unit (bind_texture_uniform ctxt samplers texture sampler location texture_bind_points TextureTarget.texture2dArray)
  | UniformValue.CompressedTexture2dArray texture sampler =>
      drop_unit (bind_texture_uniform ctxt samplers texture sampler location texture_bind_points TextureTarget.texture2dArray)
  | UniformValue.SrgbTexture2dArray texture sampler =>
      drop_unit (bind_texture_uniform ctxt samplers texture sampler location texture_bind_points TextureTarget.texture2dArray)
  | UniformValue.CompressedSrgbTexture2dArray texture sampler =>
      drop_unit (bind_texture_uniform ctxt samplers texture sampler location texture_bind_points TextureTarget.texture2dArray)
  | UniformValue.IntegralTexture2dArray texture sampler =>
      drop_unit (bind_texture_uniform ctxt samplers texture sampler location texture_bind_points TextureTarget.texture2dArray)
  | UniformValue.UnsignedTexture2dArray texture sampler =>
      drop_unit (bind_texture_uniform ctxt samplers texture sampler location texture_bind_points TextureTarget.texture2dArray)
  | UniformValue.DepthTexture2dArray texture sampler =>
      drop_unit (bind_texture_uniform ctxt samplers texture sampler location texture_bind_points TextureTarget.texture2dArray)
  | UniformValue.Texture2dMultisampleArray texture sampler =>
      drop_unit (bind_texture_uniform ctxt samplers texture sampler location texture_bind_points TextureTarget.texture2dMultisampleArray)
  | UniformValue.SrgbTexture2dMultisampleArray texture sampler =>
      drop_unit (bind_texture_uniform ctxt samplers texture sampler location texture_bind_points TextureTarget.texture2dMultisampleArray)
  | UniformValue.IntegralTexture2dMultisampleArray texture sampler =>
      drop_unit (bind_texture_uniform ctxt samplers texture sampler location texture_bind_points TextureTarget.texture2dMultisampleArray)
  | UniformValue.UnsignedTexture2dMultisampleArray texture sampler =>
      drop_unit (bind_texture_uniform ctxt samplers texture sampler location texture_bind_points TextureTarget.texture2dMultisampleArray)
  | UniformValue.DepthTexture2dMultisampleArray texture sampler =>
      drop_unit (bind_texture_uniform ctxt samplers texture sampler location texture_bind_points TextureTarget.texture2dMultisampleArray)

/-- `bind_uniform_block` (lines 110-138): on a `Block` value, check the layout
closure, allocate the lowest unused buffer bind point (exhaustion is the
"Not enough buffer units" panic), assert the buffer's offset is zero, take its
fence, and issue the buffer-to-slot and program-block-to-slot binds.  A
non-`Block` value is a `UniformValueToBlock` error.  Returns the optional
fence alongside the updated bitsfield and the issued calls. -/
def bind_uniform_block (value : UniformValue) (block : UniformBlock)
    (buffer_bind_points : Bitsfield) (name : String) :
    Res (Option Nat × Bitsfield × List GlCall) :=
  match value with
  | UniformValue.Block buffer layout =>
      if layout block then
        match buffer_bind_points.get_unused with
        | none => Res.fatal "Not enough buffer units"
        | some bind_point =>
            if buffer.offset_bytes = 0 then
              Res.ok (buffer.fence, buffer_bind_points.set_used bind_point,
                      [GlCall.BindBufferUniform buffer.id bind_point,
                       GlCall.SetUniformBlockBinding block.binding bind_point])
            else Res.fatal "assertion failed: buffer.get_offset_bytes() == 0"
      else
        Res.err (DrawError.UniformBlockLayoutMismatch name) (none, buffer_bind_points, [])
  | _ => Res.err (DrawError.UniformValueToBlock name) (none, buffer_bind_points, [])

/-- `bind_shared_storage_block` (lines 140-168): identical to
`bind_uniform_block` but binding for shared storage. -/
def bind_shared_storage_block (value : UniformValue) (block : UniformBlock)
    (buffer_bind_points : Bitsfield) (name : String) :
    Res (Option Nat × Bitsfield × List GlCall) :=
  match value with
  | UniformValue.Block buffer layout =>
      if layout block then
        match buffer_bind_points.get_unused with
        | none => Res.fatal "Not enough buffer units"
        | some bind_point =>
            if buffer.offset_bytes = 0 then
              Res.ok (buffer.fence, buffer_bind_points.set_used bind_point,
                      [GlCall.BindBufferSharedStorage buffer.id bind_point,
                       GlCall.SetSharedStorageBlockBinding block.binding bind_point])
            else Res.fatal "assertion failed: buffer.get_offset_bytes() == 0"
      else
        Res.err (DrawError.UniformBlockLayoutMismatch name) (none, buffer_bind_points, [])
  | _ => Res.err (DrawError.UniformValueToBlock name) (none, buffer_bind_points, [])

/-- The whole state of one binding pass: the session context and sampler
cache, the three per-pass bitsfields, the fences accumulated for the caller,
and the call trace. -/
structure PassState where
  ctxt : Context
  samplers : SamplerCache
  texture_bind_points : Bitsfield
  uniform_buffer_bind_points : Bitsfield
  shared_storage_buffer_bind_points : Bitsfield
  fences : List Nat
  calls : List GlCall
deriving DecidableEq, Repr

/-- One iteration of the `visit_values` closure (lines 49-104): classify the
name via reflection — plain uniform first (assert no array size, check
`is_usable_with`, bind), else uniform block, else shared-storage block, else
silently ignore.  `usable` is the external `UniformValue::is_usable_with`
predicate (its code lives outside `src/`). -/
def process_value (program : Program) (usable : UniformValue → Nat → Bool)
    (st : PassState) (name : String) (value : UniformValue) : Res PassState :=
  match program.get_uniform name with
  | some uniform =>
      if uniform.size ≠ none then Res.fatal "Uniform arrays not supported yet"
      else if usable value uniform.ty then
        match bind_uniform st.ctxt st.samplers value uniform.location
            st.texture_bind_points name with
        | Res.ok s =>
            Res.ok { st with
              ctxt := s.ctxt,
              samplers := s.samplers,
              texture_bind_points := s.texture_bind_points,
              calls := st.calls ++ s.calls }
        | Res.err e s =>
            Res.err e { st with
              ctxt := s.ctxt,
              samplers := s.samplers,
              texture_bind_points := s.texture_bind_points,
              calls := st.calls ++ s.calls }
        | Res.fatal m => Res.fatal m
      else Res.err (DrawError.UniformTypeMismatch name uniform.ty) st
  | none =>
      match program.uniform_blocks.lookup name with
      | some block =>
          match bind_uniform_block value block st.uniform_buffer_bind_points name with
          | Res.ok (fence, bps, calls) =>
              Res.ok { st with
                uniform_buffer_bind_points := bps,
                fences := st.fences ++ fence.toList,
                calls := st.calls ++ calls }
          | Res.err e (_, bps, calls) =>
              Res.err e { st with
                uniform_buffer_bind_points := bps,
                calls := st.calls ++ calls }
          | Res.fatal m => Res.fatal m
      | none =>
          match program.shader_storage_blocks.lookup name with
          | some block =>
              match bind_shared_storage_block value block
                  st.shared_storage_buffer_bind_points name with
              | Res.ok (fence, bps, calls) =>
                  Res.ok { st with
                    shared_storage_buffer_bind_points := bps,
                    fences := st.fences ++ fence.toList,
                    calls := st.calls ++ calls }
              | Res.err e (_, bps, calls) =>
                  Res.err e { st with
                    shared_storage_buffer_bind_points := bps,
                    calls := st.calls ++ calls }
              | Res.fatal m => Res.fatal m
          | none => Res.ok st

/-- The `visit_values` iteration with the `visiting_result` early-out flag:
values are processed in the supplied order; after the first error the
remaining values are skipped (the source's closure returns immediately once
`visiting_result.is_err()`). -/
def bind_uniforms_loop (program : Program) (usable : UniformValue → Nat → Bool) :
    List (String × UniformValue) → PassState → Res PassState
  | [], st => Res.ok st
  | (name, value) :: rest, st =>
      match process_value program usable st name value with
      | Res.ok st1 => bind_uniforms_loop program usable rest st1
      | Res.err e st1 => Res.err e st1
      | Res.fatal m => Res.fatal m

/-- Lines 44-46: the three bitsfields allocated fresh at the start of a pass,
alongside the incoming session context, sampler cache, and empty fence and
call lists. -/
def initial_pass_state (ctxt : Context) (samplers : SamplerCache) : PassState :=
  ⟨ctxt, samplers,
   Bitsfield.new ctxt.capabilities.max_combined_texture_image_units,
   Bitsfield.new ctxt.capabilities.max_buffer_bind_points,
   Bitsfield.new ctxt.capabilities.max_buffer_bind_points,
   [], []⟩

/-- `bind_uniforms` (lines 39-107): one full binding pass over the supplied
named values. -/
def bind_uniforms (values : List (String × UniformValue)) (program : Program)
    (usable : UniformValue → Nat → Bool) (ctxt : Context)
    (samplers : SamplerCache) : Res PassState :=
  bind_uniforms_loop program usable values (initial_pass_state ctxt samplers)

/-- Whether a trace event is a state-changing GPU call in the sense of the
idempotence property: an active-unit switch, a texture bind, or a sampler
bind. -/
def is_state_change : GlCall → Bool
  | GlCall.ActiveTexture _ => true
  | GlCall.BindTexture _ _ => true
  | GlCall.BindSampler _ _ => true
  | _ => false

/-- Number of state-changing GPU calls in a trace. -/
def state_change_count (calls : List GlCall) : Nat :=
  (calls.filter is_state_change).length

/-! ### Lemmas about the bind-point allocator and the sampler cache -/

theorem is_used_set_used_self (b : Bitsfield) (i : Nat) :
    (b.set_used i).is_used i = true := by
  simp [Bitsfield.set_used, Bitsfield.is_used, List.contains_cons]

theorem is_used_set_used_of (b : Bitsfield) (i j : Nat) (h : b.is_used j = true) :
    (b.set_used i).is_used j = true := by
  simp only [Bitsfield.set_used, Bitsfield.is_used] at *
  simp only [List.contains_cons]
  have := List.elem_iff.mp h
  simp [this]

theorem first_unused_some (used : List Nat) :
    ∀ fuel i u, first_unused used fuel i = some u →
      i ≤ u ∧ u < i + fuel ∧ used.contains u = false ∧
      ∀ j, i ≤ j → j < u → used.contains j = true := by
  intro fuel
  induction fuel with
  | zero => intro i u h; simp [first_unused] at h
  | succ n ih =>
      intro i u h
      by_cases hc : used.contains i
      · rw [first_unused, if_pos hc] at h
        obtain ⟨h1, h2, h3, h4⟩ := ih (i + 1) u h
        refine ⟨by omega, by omega, h3, ?_⟩
        intro j hj1 hj2
        rcases Nat.eq_or_lt_of_le hj1 with he | hlt
        · exact he ▸ hc
        · exact h4 j hlt hj2
      · rw [first_unused, if_neg hc] at h
        cases h
        exact ⟨Nat.le_refl _, by omega, by simpa using hc, fun j h1 h2 => absurd (by omega) (Nat.not_lt.mpr h1)⟩

theorem first_unused_none (used : List Nat) :
    ∀ fuel i, (∀ j, i ≤ j → j < i + fuel → used.contains j = true) →
      first_unused used fuel i = none := by
  intro fuel
  induction fuel with
  | zero => intro i _; rfl
  | succ n ih =>
      intro i h
      have hc : used.contains i = true := h i (Nat.le_refl _) (by omega)
      rw [first_unused, if_pos hc]
      exact ih (i + 1) (fun j h1 h2 => h j (by omega) (by omega))

theorem get_unused_some (b : Bitsfield) (u : Nat) (h : b.get_unused = some u) :
    u < b.capacity ∧ b.is_used u = false ∧ ∀ j < u, b.is_used j = true := by
  obtain ⟨_, h2, h3, h4⟩ := first_unused_some b.used b.capacity 0 u h
  exact ⟨by omega, h3, fun j hj => h4 j (Nat.zero_le _) hj⟩

theorem get_unused_none (b : Bitsfield) (h : ∀ j < b.capacity, b.is_used j = true) :
    b.get_unused = none :=
  first_unused_none b.used b.capacity 0 (fun j _ h2 => h j (by omega))

theorem get_sampler_stable (c : SamplerCache) (b : Nat) :
    get_sampler (get_sampler c b).2 b = get_sampler c b := by
  unfold get_sampler
  cases h : c.entries.lookup b with
  | some v => simp [h]
  | none => simp [h, List.lookup]

theorem resolve_sampler_stable (c : SamplerCache) (sb : Option Nat) :
    resolve_sampler (resolve_sampler c sb).2 sb = resolve_sampler c sb := by
  cases sb with
  | none => rfl
  | some b => simp [resolve_sampler, get_sampler_stable]

/-! ### Lemmas about the texture-unit scan -/

/-- Index `i` of the Session Texture-Unit Table qualifies for reuse: its entry
holds the requested texture and either the resolved sampler or an index not
yet reserved in this pass's bitsfield. -/
def entry_matches (units : List TextureUnit) (bp : Bitsfield) (texture sampler i : Nat) : Prop :=
  ∃ c, units.get? i = some c ∧ unit_ok bp texture sampler c i

theorem scan_units_none (t s : Nat) (bp : Bitsfield) :
    ∀ (l : List TextureUnit) (i : Nat), scan_units t s bp l i = none →
      ∀ j c, l.get? j = some c → ¬ unit_ok bp t s c (i + j) := by
  intro l
  induction l with
  | nil => intro i _ j c hj; simp [List.get?] at hj
  | cons a rest ih =>
      intro i h j c hj
      by_cases hok : unit_ok bp t s a i
      · rw [scan_units, if_pos hok] at h; cases h
      · rw [scan_units, if_neg hok] at h
        cases j with
        | zero => cases hj; simpa using hok
        | succ k =>
            have := ih (i + 1) h k c (by simpa using hj)
            have harith : i + (k + 1) = i + 1 + k := by omega
            rw [harith]; exact this

theorem scan_units_some (t s : Nat) (bp : Bitsfield) :
    ∀ (l : List TextureUnit) (i u : Nat), scan_units t s bp l i = some u →
      i ≤ u ∧ (∃ c, l.get? (u - i) = some c ∧ unit_ok bp t s c u) ∧
      ∀ j c, i + j < u → l.get? j = some c → ¬ unit_ok bp t s c (i + j) := by
  intro l
  induction l with
  | nil => intro i u h; simp [scan_units] at h
  | cons a rest ih =>
      intro i u h
      by_cases hok : unit_ok bp t s a i
      · rw [scan_units, if_pos hok] at h
        cases h
        exact ⟨Nat.le_refl _, ⟨a, by simp, hok⟩,
               fun j c hj _ => absurd hj (by omega)⟩
      · rw [scan_units, if_neg hok] at h
        obtain ⟨h1, ⟨c, hc1, hc2⟩, h3⟩ := ih (i + 1) u h
        refine ⟨by omega, ⟨c, ?_, hc2⟩, ?_⟩
        · have : u - i = (u - (i + 1)) + 1 := by omega
          rw [this]; simpa using hc1
        · intro j c' hj hjc
          cases j with
          | zero => cases hjc; simpa using hok
          | succ k =>
              have harith : i + (k + 1) = i + 1 + k := by omega
              rw [harith]
              exact h3 k c' (by omega) (by simpa using hjc)

/-- If index `u` fully matches and no earlier index qualifies, the scan
returns `u`. -/
theorem scan_units_eq_some_of (t s : Nat) (bp : Bitsfield) (l : List TextureUnit)
    (u : Nat) (c : TextureUnit) (hc : l.get? u = some c) (hok : unit_ok bp t s c u)
    (hmin : ∀ j c', j < u → l.get? j = some c' → ¬ unit_ok bp t s c' j) :
    scan_units t s bp l 0 = some u := by
  cases hscan : scan_units t s bp l 0 with
  | none => exact absurd hok (by simpa using scan_units_none t s bp l 0 hscan u c hc)
  | some v =>
      obtain ⟨_, ⟨cv, hv1, hv2⟩, h3⟩ := scan_units_some t s bp l 0 v hscan
      simp only [Nat.sub_zero] at hv1
      rcases Nat.lt_trichotomy v u with hlt | he | hgt
      · exact absurd hv2 (hmin v cv hlt hv1)
      · rw [he]
      · exact absurd hok (by simpa using h3 u c (by omega) hc)

/-! ### Lemmas about the full unit choice -/

theorem find_texture_unit_min (units : List TextureUnit) (max_units t s : Nat)
    (bp : Bitsfield) (u : Nat) (h : find_texture_unit units max_units t s bp = some u) :
    ∀ j c, j < u → units.get? j = some c → ¬ unit_ok bp t s c j := by
  unfold find_texture_unit at h
  cases hscan : scan_units t s bp units 0 with
  | some v =>
      rw [hscan] at h; cases h
      intro j c hj hjc
      have := (scan_units_some t s bp units 0 u hscan).2.2 j c (by omega) hjc
      simpa using this
  | none =>
      intro j c _ hjc
      exact (by simpa using scan_units_none t s bp units 0 hscan j c hjc)

theorem find_texture_unit_spec (units : List TextureUnit) (max_units t s : Nat)
    (bp : Bitsfield) (u : Nat) (h : find_texture_unit units max_units t s bp = some u) :
    ((∃ i, entry_matches units bp t s i) →
       entry_matches units bp t s u ∧ ∀ j < u, ¬ entry_matches units bp t s j)
    ∧ ((∀ i, ¬ entry_matches units bp t s i) → units.length < max_units →
         u = units.length)
    ∧ ((∀ i, ¬ entry_matches units bp t s i) → ¬ units.length < max_units →
         u < bp.capacity ∧ bp.is_used u = false ∧ ∀ j < u, bp.is_used j = true) := by
  unfold find_texture_unit at h
  cases hscan : scan_units t s bp units 0 with
  | some v =>
      rw [hscan] at h; cases h
      obtain ⟨_, ⟨c, hc1, hc2⟩, hmin⟩ := scan_units_some t s bp units 0 u hscan
      simp only [Nat.sub_zero] at hc1
      have hm : entry_matches units bp t s u := ⟨c, hc1, hc2⟩
      refine ⟨fun _ => ⟨hm, ?_⟩, fun hno _ => absurd hm (hno u), fun hno _ => absurd hm (hno u)⟩
      intro j hj ⟨c', hjc, hok⟩
      have h' : ¬ unit_ok bp t s c' j := by simpa using hmin j c' (by omega) hjc
      exact h' hok
  | none =>
      rw [hscan] at h
      have hno : ∀ i, ¬ entry_matches units bp t s i := by
        intro i ⟨c, hc1, hc2⟩
        have h' : ¬ unit_ok bp t s c i := by
          simpa using scan_units_none t s bp units 0 hscan i c hc1
        exact h' hc2
      by_cases hlen : units.length < max_units
      · rw [if_pos hlen] at h; cases h
        exact ⟨fun ⟨i, hi⟩ => absurd hi (hno i), fun _ _ => rfl,
               fun _ hc => absurd hlen hc⟩
      · rw [if_neg hlen] at h
        obtain ⟨h1, h2, h3⟩ := get_unused_some bp u h
        exact ⟨fun ⟨i, hi⟩ => absurd hi (hno i), fun _ hc => absurd hc hlen,
               fun _ _ => ⟨h1, h2, h3⟩⟩

theorem find_texture_unit_cases (units : List TextureUnit) (max_units t s : Nat)
    (bp : Bitsfield) (u : Nat) (h : find_texture_unit units max_units t s bp = some u) :
    entry_matches units bp t s u ∨ u = units.length ∨ bp.is_used u = false := by
  unfold find_texture_unit at h
  cases hscan : scan_units t s bp units 0 with
  | some v =>
      rw [hscan] at h; cases h
      obtain ⟨_, ⟨c, hc1, hc2⟩, _⟩ := scan_units_some t s bp units 0 u hscan
      simp only [Nat.sub_zero] at hc1
      exact Or.inl ⟨c, hc1, hc2⟩
  | none =>
      rw [hscan] at h
      by_cases hlen : units.length < max_units
      · rw [if_pos hlen] at h; cases h; exact Or.inr (Or.inl rfl)
      · rw [if_neg hlen] at h
        exact Or.inr (Or.inr (get_unused_some bp u h).2.1)

theorem find_texture_unit_le_length (units : List TextureUnit) (max_units t s : Nat)
    (bp : Bitsfield) (u : Nat) (h : find_texture_unit units max_units t s bp = some u)
    (hmax : u < max_units) : u ≤ units.length := by
  unfold find_texture_unit at h
  cases hscan : scan_units t s bp units 0 with
  | some v =>
      rw [hscan] at h; cases h
      obtain ⟨_, ⟨c, hc1, _⟩, _⟩ := scan_units_some t s bp units 0 u hscan
      simp only [Nat.sub_zero] at hc1
      have : u < units.length := by
        by_contra hc
        rw [List.get?_eq_none.mpr (by omega)] at hc1; cases hc1
      omega
  | none =>
      rw [hscan] at h
      by_cases hlen : units.length < max_units
      · rw [if_pos hlen] at h; cases h; exact Nat.le_refl _
      · rw [if_neg hlen] at h; omega

theorem find_texture_unit_eq_none (units : List TextureUnit) (max_units t s : Nat)
    (bp : Bitsfield)
    (hno : ∀ j c, units.get? j = some c → ¬ unit_ok bp t s c j)
    (hlen : ¬ units.length < max_units)
    (hfull : ∀ j < bp.capacity, bp.is_used j = true) :
    find_texture_unit units max_units t s bp = none := by
  unfold find_texture_unit
  cases hscan : scan_units t s bp units 0 with
  | some v =>
      obtain ⟨_, ⟨c, hc1, hc2⟩, _⟩ := scan_units_some t s bp units 0 v hscan
      simp only [Nat.sub_zero] at hc1
      exact absurd hc2 (hno v c hc1)
  | none => rw [if_neg hlen]; exact get_unused_none bp hfull

/-! ### Lemmas about the table extension -/

theorem extend_units_length (l : List TextureUnit) (u : Nat) :
    (extend_units l u).length = max l.length (u + 1) := by
  unfold extend_units
  split <;> simp <;> omega

theorem lt_extend_units_length (l : List TextureUnit) (u : Nat) :
    u < (extend_units l u).length := by
  rw [extend_units_length]; omega

theorem extend_units_of_lt (l : List TextureUnit) (u : Nat) (h : u < l.length) :
    extend_units l u = l := by
  unfold extend_units
  rw [if_neg (by omega)]

theorem extend_units_get?_lt (l : List TextureUnit) (u j : Nat) (h : j < l.length) :
    (extend_units l u).get? j = l.get? j := by
  unfold extend_units
  split
  · simp [List.get?_eq_getElem?, List.getElem?_append, h]
  · rfl

theorem extend_units_get?_self (l : List TextureUnit) (u : Nat) (h : l.length ≤ u) :
    (extend_units l u).get? u = some TextureUnit.dflt := by
  unfold extend_units
  rw [if_pos h]
  rw [List.get?_eq_getElem?, List.getElem?_append_right h]
  rw [List.getElem?_replicate]
  rw [if_pos (by omega)]

theorem list_get?_set_self {α : Type} (l : List α) (u : Nat) (x : α) (h : u < l.length) :
    (l.set u x).get? u = some x := by
  simp [List.get?_eq_getElem?, List.getElem?_set, h]

theorem list_get?_set_ne {α : Type} (l : List α) (u j : Nat) (x : α) (h : j ≠ u) :
    (l.set u x).get? j = l.get? j := by
  simp [List.get?_eq_getElem?, List.getElem?_set, Ne.symm h]

theorem list_getD_set_self {α : Type} (l : List α) (u : Nat) (x d : α) (h : u < l.length) :
    (l.set u x).getD u d = x := by
  simp [List.getD_eq_getElem?_getD, List.getElem?_set, h]

theorem list_get?_eq_getD {α : Type} (l : List α) (u : Nat) (d : α) (h : u < l.length) :
    l.get? u = some (l.getD u d) := by
  rw [List.getD_eq_getElem?_getD, List.get?_eq_getElem?]
  rw [List.getElem?_eq_getElem h]
  rfl

/-! ### Characterization of a successful texture bind -/

/-- Everything a successful `bind_texture_uniform` guarantees: the unit came
from `find_texture_unit` and passed the limit assertion; the bitsfield gained
exactly that unit; the sampler cache advanced by the resolution; capabilities
are untouched; the table entry at the chosen unit now holds the requested
texture and resolved sampler while all other entries are those of the
(possibly extended) incoming table; the first issued call programs the uniform
location with the unit; and if the (extended) entry already matched, nothing
was synced at all. -/
theorem bind_texture_uniform_ok
    (ctxt : Context) (samplers0 : SamplerCache) (texture : Nat) (sb : Option Nat)
    (location : Int) (bp : Bitsfield) (target : TextureTarget) (s : TexBindOut)
    (h : bind_texture_uniform ctxt samplers0 texture sb location bp target = Res.ok s) :
    find_texture_unit ctxt.state.texture_units
        ctxt.capabilities.max_combined_texture_image_units texture
        (resolve_sampler samplers0 sb).1 bp = some s.unit
    ∧ s.unit < ctxt.capabilities.max_combined_texture_image_units
    ∧ s.texture_bind_points = bp.set_used s.unit
    ∧ s.samplers = (resolve_sampler samplers0 sb).2
    ∧ s.ctxt.capabilities = ctxt.capabilities
    ∧ s.ctxt.state.texture_units.get? s.unit =
        some ⟨texture, (resolve_sampler samplers0 sb).1⟩
    ∧ (∀ j, j ≠ s.unit → s.ctxt.state.texture_units.get? j =
        (extend_units ctxt.state.texture_units s.unit).get? j)
    ∧ s.ctxt.state.texture_units.length =
        (extend_units ctxt.state.texture_units s.unit).length
    ∧ s.calls.head? = some (GlCall.SetUniform location (RawUniformValue.SignedInt s.unit))
    ∧ ((extend_units ctxt.state.texture_units s.unit).getD s.unit TextureUnit.dflt =
          (⟨texture, (resolve_sampler samplers0 sb).1⟩ : TextureUnit) →
        s.ctxt = { ctxt with state :=
          { ctxt.state with texture_units := extend_units ctxt.state.texture_units s.unit } }
        ∧ s.calls = [GlCall.SetUniform location (RawUniformValue.SignedInt s.unit)]) := by
  simp only [bind_texture_uniform] at h
  cases hf : find_texture_unit ctxt.state.texture_units
      ctxt.capabilities.max_combined_texture_image_units texture
      (resolve_sampler samplers0 sb).1 bp with
  | none => rw [hf] at h; cases h
  | some u =>
      rw [hf] at h
      dsimp only at h
      split_ifs at h with h1 h2 h3 h4 h5 h6 h7 h8 h9 h10 h11
      all_goals (injection h with h; subst h)
      -- branch A: entry already fully matches, nothing synced
      · refine ⟨rfl, h1, rfl, rfl, rfl, ?_, fun j _ => rfl, rfl, rfl, fun _ => ⟨rfl, rfl⟩⟩
        rw [list_get?_eq_getD _ _ TextureUnit.dflt (lt_extend_units_length _ _)]
        rw [← h2.1, ← h2.2]
      -- impossible: texture and sampler both match but sync branch taken
      · exact absurd ⟨h3, h4⟩ h2
      · exact absurd ⟨h3, h4⟩ h2
      -- branch C with matching texture: only the sampler is rebound
      · refine ⟨rfl, h1, rfl, rfl, rfl, ?_, ?_, ?_, rfl, ?_⟩
        · rw [list_get?_set_self _ _ _ (lt_extend_units_length _ _), h3]
        · intro j hj; rw [list_get?_set_ne _ _ _ _ hj]
        · simp
        · intro hco; exact absurd (congrArg TextureUnit.sampler hco) h4
      · refine ⟨rfl, h1, rfl, rfl, rfl, ?_, ?_, ?_, rfl, ?_⟩
        · rw [list_get?_set_self _ _ _ (lt_extend_units_length _ _), h3]
        · intro j hj; rw [list_get?_set_ne _ _ _ _ hj]
        · simp
        · intro hco; exact absurd (congrArg TextureUnit.sampler hco) h4
      -- branch B with differing texture: texture rebound, sampler already right
      · have hs : ((extend_units ctxt.state.texture_units u).getD u TextureUnit.dflt).sampler =
            (resolve_sampler samplers0 sb).1 := by
          rwa [list_getD_set_self _ _ _ _ (lt_extend_units_length _ _)] at h8
        refine ⟨rfl, h1, rfl, rfl, rfl, ?_, ?_, ?_, rfl, ?_⟩
        · rw [list_get?_set_self _ _ _ (lt_extend_units_length _ _), hs]
        · intro j hj; rw [list_get?_set_ne _ _ _ _ hj]
        · simp
        · intro hco; exact absurd (congrArg TextureUnit.texture hco) h3
      · have hs : ((extend_units ctxt.state.texture_units u).getD u TextureUnit.dflt).sampler =
            (resolve_sampler samplers0 sb).1 := by
          rwa [list_getD_set_self _ _ _ _ (lt_extend_units_length _ _)] at h8
        refine ⟨rfl, h1, rfl, rfl, rfl, ?_, ?_, ?_, rfl, ?_⟩
        · rw [list_get?_set_self _ _ _ (lt_extend_units_length _ _), hs]
        · intro j hj; rw [list_get?_set_ne _ _ _ _ hj]
        · simp
        · intro hco; exact absurd (congrArg TextureUnit.texture hco) h3
      -- branch C with differing texture: both texture and sampler rebound
      · refine ⟨rfl, h1, rfl, rfl, rfl, ?_, ?_, ?_, rfl, ?_⟩
        · rw [list_get?_set_self _ _ _ (by simp [lt_extend_units_length])]
          rw [list_getD_set_self _ _ _ _ (lt_extend_units_length _ _)]
        · intro j hj
          rw [list_get?_set_ne _ _ _ _ hj, list_get?_set_ne _ _ _ _ hj]
        · simp
        · intro hco; exact absurd (congrArg TextureUnit.texture hco) h3
      · refine ⟨rfl, h1, rfl, rfl, rfl, ?_, ?_, ?_, rfl, ?_⟩
        · rw [list_get?_set_self _ _ _ (by simp [lt_extend_units_length])]
          rw [list_getD_set_self _ _ _ _ (lt_extend_units_length _ _)]
        · intro j hj
          rw [list_get?_set_ne _ _ _ _ hj, list_get?_set_ne _ _ _ _ hj]
        · simp
        · intro hco; exact absurd (congrArg TextureUnit.texture hco) h3

/-- Re-running the same texture+sampler request against the session state a
successful bind left behind — with any bitsfield whose reservations include
the original ones — reuses exactly the same unit, changes no session state,
and issues only the `set_uniform` programming call. -/
theorem bind_texture_uniform_rebind
    (ctxt : Context) (samplers0 : SamplerCache) (texture : Nat) (sb : Option Nat)
    (location : Int) (bp : Bitsfield) (target : TextureTarget) (s : TexBindOut)
    (h : bind_texture_uniform ctxt samplers0 texture sb location bp target = Res.ok s)
    (bp2 : Bitsfield) (hmono : ∀ j, bp.is_used j = true → bp2.is_used j = true)
    (location2 : Int) :
    bind_texture_uniform s.ctxt s.samplers texture sb location2 bp2 target =
      Res.ok ⟨s.ctxt, s.samplers, bp2.set_used s.unit,
              [GlCall.SetUniform location2 (RawUniformValue.SignedInt s.unit)], s.unit⟩ := by
  obtain ⟨ha, hb, hc, hd, he, hentry, hother, hlen, hhead, hnosync⟩ :=
    bind_texture_uniform_ok ctxt samplers0 texture sb location bp target s h
  -- the resolved sampler of the first pass
  have hres : resolve_sampler s.samplers sb = ((resolve_sampler samplers0 sb).1, s.samplers) := by
    rw [hd]
    have := resolve_sampler_stable samplers0 sb
    rw [this]
  -- the first pass's unit is within the incoming table
  have hle : s.unit ≤ ctxt.state.texture_units.length :=
    find_texture_unit_le_length _ _ _ _ _ _ ha hb
  -- the new table still matches only from the chosen unit on
  have hmin2 : ∀ j c, j < s.unit → s.ctxt.state.texture_units.get? j = some c →
      ¬ unit_ok bp2 texture (resolve_sampler samplers0 sb).1 c j := by
    intro j c hj hjc
    have hjlt : j < ctxt.state.texture_units.length := by omega
    rw [hother j (by omega), extend_units_get?_lt _ _ _ hjlt] at hjc
    have hold := find_texture_unit_min _ _ _ _ _ _ ha j c hj hjc
    intro ⟨ht, hor⟩
    refine hold ⟨ht, ?_⟩
    rcases hor with hsam | hfree
    · exact Or.inl hsam
    · refine Or.inr ?_
      by_contra hcon
      rw [Bool.not_eq_false] at hcon
      rw [hmono j hcon] at hfree
      cases hfree
  have hfind2 : find_texture_unit s.ctxt.state.texture_units
      s.ctxt.capabilities.max_combined_texture_image_units texture
      (resolve_sampler samplers0 sb).1 bp2 = some s.unit := by
    unfold find_texture_unit
    rw [scan_units_eq_some_of _ _ bp2 _ s.unit _ hentry ⟨rfl, Or.inl rfl⟩ hmin2]
  -- second pass: the table needs no extension
  have hlt2 : s.unit < s.ctxt.state.texture_units.length := by
    rw [hlen, extend_units_length]; omega
  have hext2 : extend_units s.ctxt.state.texture_units s.unit = s.ctxt.state.texture_units :=
    extend_units_of_lt _ _ hlt2
  simp only [bind_texture_uniform, hres, hfind2, hext2]
  rw [if_pos (he ▸ hb)]
  have hgd : s.ctxt.state.texture_units.getD s.unit TextureUnit.dflt =
      (⟨texture, (resolve_sampler samplers0 sb).1⟩ : TextureUnit) := by
    rw [List.getD_eq_getElem?_getD, ← List.get?_eq_getElem?, hentry]
    rfl
  rw [if_pos ⟨by rw [hgd], by rw [hgd]⟩]

/-! ### The claims -/

/-- The spec's priority order for the texture-unit resolver, as a predicate on
the chosen unit `u`: first the lowest index of the session table whose entry
qualifies (texture equal, and sampler equal or index unreserved); otherwise,
while the table is below the hardware limit, the table's length (append);
otherwise the lowest index unused in the pass's bitsfield. -/
def resolver_priority (units : List TextureUnit) (bp : Bitsfield)
    (texture sampler max_units u : Nat) : Prop :=
  ((∃ i, entry_matches units bp texture sampler i) →
     entry_matches units bp texture sampler u ∧
     ∀ j < u, ¬ entry_matches units bp texture sampler j)
  ∧ ((∀ i, ¬ entry_matches units bp texture sampler i) → units.length < max_units →
       u = units.length)
  ∧ ((∀ i, ¬ entry_matches units bp texture sampler i) → ¬ units.length < max_units →
       u < bp.capacity ∧ bp.is_used u = false ∧ ∀ j < u, bp.is_used j = true)

/-- C1: a texture uniform resolved in a binding pass chooses its unit by the
priority order — lowest table index whose bound texture equals the requested
one and whose sampler matches or whose index is unreserved in the pass's
bitsfield; else the table length while below the hardware limit; else the
lowest bitsfield-unused index — and the chosen index is marked reserved and
programmed into the uniform location (the first issued call). -/
theorem texture_unit_resolution_priority
    (ctxt : Context) (samplers0 : SamplerCache) (texture : Nat) (sb : Option Nat)
    (location : Int) (bp : Bitsfield) (target : TextureTarget) (s : TexBindOut)
    (h : bind_texture_uniform ctxt samplers0 texture sb location bp target = Res.ok s) :
    resolver_priority ctxt.state.texture_units bp texture
      (resolve_sampler samplers0 sb).1
      ctxt.capabilities.max_combined_texture_image_units s.unit
    ∧ s.texture_bind_points.is_used s.unit = true
    ∧ s.calls.head? = some (GlCall.SetUniform location (RawUniformValue.SignedInt s.unit)) := by
  obtain ⟨ha, _, hc, _, _, _, _, _, hhead, _⟩ :=
    bind_texture_uniform_ok ctxt samplers0 texture sb location bp target s h
  refine ⟨find_texture_unit_spec _ _ _ _ _ _ ha, ?_, hhead⟩
  rw [hc]
  exact is_used_set_used_self _ _

/-- Witness for C1 at a concrete input: fresh session (empty table, limit 2),
texture 5 with no sampler bound at location 0 takes unit 0. -/
theorem texture_unit_resolution_priority_witness :
    resolver_priority [] (Bitsfield.new 2) 5 0 2 0
    ∧ ((Bitsfield.new 2).set_used 0).is_used 0 = true
    ∧ ([GlCall.SetUniform 0 (RawUniformValue.SignedInt 0),
        GlCall.BindTexture TextureTarget.texture2d 5].head? =
         some (GlCall.SetUniform 0 (RawUniformValue.SignedInt 0))) :=
  texture_unit_resolution_priority ⟨⟨[], 0⟩, ⟨2, 2⟩, true, true⟩ ⟨[], 1⟩ 5 none 0
    (Bitsfield.new 2) TextureTarget.texture2d
    ⟨⟨⟨[⟨5, 0⟩], 0⟩, ⟨2, 2⟩, true, true⟩, ⟨[], 1⟩, ⟨2, [0]⟩,
     [GlCall.SetUniform 0 (RawUniformValue.SignedInt 0),
      GlCall.BindTexture TextureTarget.texture2d 5], 0⟩ (by rfl)

/-- C2: rebinding the same texture+sampler combination to the same uniform in
a second pass over the session state the first pass produced (same incoming
reservations) resolves to the same unit, leaves the session state untouched,
and issues zero state-changing GPU calls — only the `set_uniform` programming
call. -/
theorem texture_rebind_idempotent
    (ctxt : Context) (samplers0 : SamplerCache) (texture : Nat) (sb : Option Nat)
    (location : Int) (bp : Bitsfield) (target : TextureTarget) (s : TexBindOut)
    (h : bind_texture_uniform ctxt samplers0 texture sb location bp target = Res.ok s) :
    bind_texture_uniform s.ctxt s.samplers texture sb location bp target =
      Res.ok ⟨s.ctxt, s.samplers, bp.set_used s.unit,
              [GlCall.SetUniform location (RawUniformValue.SignedInt s.unit)], s.unit⟩
    ∧ state_change_count [GlCall.SetUniform location (RawUniformValue.SignedInt s.unit)] = 0 :=
  ⟨bind_texture_uniform_rebind ctxt samplers0 texture sb location bp target s h
     bp (fun _ hj => hj) location, rfl⟩

/-- Witness for C2 at a concrete input: re-running texture 5 at location 0 on
the state the first bind produced reuses unit 0 with only the programming
call. -/
theorem texture_rebind_idempotent_witness :
    bind_texture_uniform ⟨⟨[⟨5, 0⟩], 0⟩, ⟨2, 2⟩, true, true⟩ ⟨[], 1⟩ 5 none 0
      (Bitsfield.new 2) TextureTarget.texture2d =
      Res.ok ⟨⟨⟨[⟨5, 0⟩], 0⟩, ⟨2, 2⟩, true, true⟩, ⟨[], 1⟩, (Bitsfield.new 2).set_used 0,
              [GlCall.SetUniform 0 (RawUniformValue.SignedInt 0)], 0⟩
    ∧ state_change_count [GlCall.SetUniform 0 (RawUniformValue.SignedInt 0)] = 0 :=
  texture_rebind_idempotent ⟨⟨[], 0⟩, ⟨2, 2⟩, true, true⟩ ⟨[], 1⟩ 5 none 0
    (Bitsfield.new 2) TextureTarget.texture2d
    ⟨⟨⟨[⟨5, 0⟩], 0⟩, ⟨2, 2⟩, true, true⟩, ⟨[], 1⟩, ⟨2, [0]⟩,
     [GlCall.SetUniform 0 (RawUniformValue.SignedInt 0),
      GlCall.BindTexture TextureTarget.texture2d 5], 0⟩ (by rfl)

/-- C4: two uniforms of the same pass (the second running on the state and
pass bitsfield the first left) bound to the identical texture and identical
sampler behavior resolve to the same texture unit. -/
theorem same_pass_same_combination_shares_unit
    (ctxt : Context) (samplers0 : SamplerCache) (texture : Nat) (sb : Option Nat)
    (loc1 loc2 : Int) (bp : Bitsfield) (target : TextureTarget) (s1 s2 : TexBindOut)
    (h1 : bind_texture_uniform ctxt samplers0 texture sb loc1 bp target = Res.ok s1)
    (h2 : bind_texture_uniform s1.ctxt s1.samplers texture sb loc2
            s1.texture_bind_points target = Res.ok s2) :
    s2.unit = s1.unit := by
  obtain ⟨_, _, hc, _, _, _, _, _, _, _⟩ :=
    bind_texture_uniform_ok ctxt samplers0 texture sb loc1 bp target s1 h1
  have hre := bind_texture_uniform_rebind ctxt samplers0 texture sb loc1 bp target s1 h1
    s1.texture_bind_points (by intro j hj; rw [hc]; exact is_used_set_used_of _ _ _ hj) loc2
  rw [hre] at h2
  injection h2 with h2
  rw [← h2]

/-- Witness for C4 at a concrete input: a second uniform requesting texture 5
in the same pass shares unit 0. -/
theorem same_pass_same_combination_shares_unit_witness : (0 : Nat) = 0 :=
  same_pass_same_combination_shares_unit ⟨⟨[], 0⟩, ⟨2, 2⟩, true, true⟩ ⟨[], 1⟩ 5 none 0 3
    (Bitsfield.new 2) TextureTarget.texture2d
    ⟨⟨⟨[⟨5, 0⟩], 0⟩, ⟨2, 2⟩, true, true⟩, ⟨[], 1⟩, ⟨2, [0]⟩,
     [GlCall.SetUniform 0 (RawUniformValue.SignedInt 0),
      GlCall.BindTexture TextureTarget.texture2d 5], 0⟩
    ⟨⟨⟨[⟨5, 0⟩], 0⟩, ⟨2, 2⟩, true, true⟩, ⟨[], 1⟩, ⟨2, [0, 0]⟩,
     [GlCall.SetUniform 3 (RawUniformValue.SignedInt 0)], 0⟩ (by rfl) (by rfl)

/-- C5: two uniforms of the same pass bound to the same texture but with
different resolved samplers get two distinct texture units — the unit the
first reserved is never reassigned to the second. -/
theorem same_pass_distinct_samplers_distinct_units
    (ctxt : Context) (samplers0 : SamplerCache) (texture : Nat) (sb1 sb2 : Option Nat)
    (loc1 loc2 : Int) (bp : Bitsfield) (target : TextureTarget) (s1 s2 : TexBindOut)
    (h1 : bind_texture_uniform ctxt samplers0 texture sb1 loc1 bp target = Res.ok s1)
    (h2 : bind_texture_uniform s1.ctxt s1.samplers texture sb2 loc2
            s1.texture_bind_points target = Res.ok s2)
    (hne : (resolve_sampler s1.samplers sb2).1 ≠ (resolve_sampler samplers0 sb1).1) :
    s2.unit ≠ s1.unit := by
  obtain ⟨_, _, hc1, _, _, hentry1, _, _, _, _⟩ :=
    bind_texture_uniform_ok ctxt samplers0 texture sb1 loc1 bp target s1 h1
  obtain ⟨ha2, _, _, _, _, _, _, _, _, _⟩ :=
    bind_texture_uniform_ok s1.ctxt s1.samplers texture sb2 loc2
      s1.texture_bind_points target s2 h2
  intro he
  have hused1 : s1.texture_bind_points.is_used s1.unit = true := by
    rw [hc1]; exact is_used_set_used_self _ _
  rcases find_texture_unit_cases _ _ _ _ _ _ ha2 with ⟨c, hcg, hok⟩ | hl | hfree
  · rw [he, hentry1] at hcg
    injection hcg with hcg
    obtain ⟨_, hor⟩ := hok
    rcases hor with hsam | hfree2
    · rw [← hcg] at hsam
      exact hne hsam.symm
    · rw [he, hused1] at hfree2
      cases hfree2
  · have : s1.unit < s1.ctxt.state.texture_units.length := by
      by_contra hcon
      rw [List.get?_eq_none.mpr (by omega)] at hentry1
      cases hentry1
    omega
  · rw [he, hused1] at hfree
    cases hfree

/-- Witness for C5 at a concrete input: texture 5 with behaviors 1 and 2
resolves to units 0 and 1. -/
theorem same_pass_distinct_samplers_distinct_units_witness : (1 : Nat) ≠ 0 :=
  same_pass_distinct_samplers_distinct_units ⟨⟨[], 0⟩, ⟨2, 2⟩, true, true⟩ ⟨[], 1⟩ 5
    (some 1) (some 2) 0 3 (Bitsfield.new 2) TextureTarget.texture2d
    ⟨⟨⟨[⟨5, 1⟩], 0⟩, ⟨2, 2⟩, true, true⟩, ⟨[(1, 1)], 2⟩, ⟨2, [0]⟩,
     [GlCall.SetUniform 0 (RawUniformValue.SignedInt 0),
      GlCall.BindTexture TextureTarget.texture2d 5, GlCall.BindSampler 0 1], 0⟩
    ⟨⟨⟨[⟨5, 1⟩, ⟨5, 2⟩], 1⟩, ⟨2, 2⟩, true, true⟩, ⟨[(2, 2), (1, 1)], 3⟩, ⟨2, [1, 0]⟩,
     [GlCall.SetUniform 3 (RawUniformValue.SignedInt 1), GlCall.ActiveTexture 1,
      GlCall.BindTexture TextureTarget.texture2d 5, GlCall.BindSampler 1 2], 1⟩
    (by rfl) (by rfl) (by decide)

/-- C3: requesting more distinct texture+sampler combinations than
`max_combined_texture_image_units` is fatal, never a wraparound or silent
overwrite: (1) when no table entry holds the requested texture, the table has
reached the limit and every bitsfield slot is reserved, the resolver panics
with the exhaustion message; (2) a successful resolution never uses a unit at
or above the limit; (3) a unit already reserved this pass is only ever chosen
when the entry already holds exactly the requested combination, so nothing is
overwritten and no state-changing call is issued; (4) concretely, 33 distinct
textures in one pass against a limit of 32 abort fatally on the 33rd. -/
theorem capacity_exhaustion_fatal :
    (∀ (ctxt : Context) (samplers0 : SamplerCache) (texture : Nat) (sb : Option Nat)
       (location : Int) (bp : Bitsfield) (target : TextureTarget),
       (∀ j c, ctxt.state.texture_units.get? j = some c → c.texture ≠ texture) →
       ¬ ctxt.state.texture_units.length <
           ctxt.capabilities.max_combined_texture_image_units →
       (∀ j < bp.capacity, bp.is_used j = true) →
       bind_texture_uniform ctxt samplers0 texture sb location bp target =
         Res.fatal "Not enough texture units available")
    ∧ (∀ (ctxt : Context) (samplers0 : SamplerCache) (texture : Nat) (sb : Option Nat)
         (location : Int) (bp : Bitsfield) (target : TextureTarget) (s : TexBindOut),
         bind_texture_uniform ctxt samplers0 texture sb location bp target = Res.ok s →
         s.unit < ctxt.capabilities.max_combined_texture_image_units)
    ∧ (∀ (ctxt : Context) (samplers0 : SamplerCache) (texture : Nat) (sb : Option Nat)
         (location : Int) (bp : Bitsfield) (target : TextureTarget) (s : TexBindOut),
         bind_texture_uniform ctxt samplers0 texture sb location bp target = Res.ok s →
         bp.is_used s.unit = true →
         (∀ j, bp.is_used j = true → j < ctxt.state.texture_units.length) →
         s.ctxt.state.texture_units = ctxt.state.texture_units ∧
         s.calls = [GlCall.SetUniform location (RawUniformValue.SignedInt s.unit)])
    ∧ bind_uniforms
        ((List.range 33).map fun i => (toString i, UniformValue.Texture2d (i + 1) none))
        ⟨(List.range 33).map (fun i => (toString i, ⟨0, 0, none⟩)), [], []⟩
        (fun _ _ => true) ⟨⟨[], 0⟩, ⟨32, 8⟩, true, true⟩ ⟨[], 1⟩ =
        Res.fatal "Not enough texture units available" := by
  refine ⟨?_, ?_, ?_, by rfl⟩
  · intro ctxt samplers0 texture sb location bp target hno hlen hfull
    have hfind : find_texture_unit ctxt.state.texture_units
        ctxt.capabilities.max_combined_texture_image_units texture
        (resolve_sampler samplers0 sb).1 bp = none := by
      refine find_texture_unit_eq_none _ _ _ _ _ ?_ hlen hfull
      intro j c hjc ⟨ht, _⟩
      exact hno j c hjc ht
    simp only [bind_texture_uniform, hfind]
  · intro ctxt samplers0 texture sb location bp target s h
    exact (bind_texture_uniform_ok ctxt samplers0 texture sb location bp target s h).2.1
  · intro ctxt samplers0 texture sb location bp target s h hused hinv
    obtain ⟨ha, _, _, _, _, _, _, _, _, hnosync⟩ :=
      bind_texture_uniform_ok ctxt samplers0 texture sb location bp target s h
    rcases find_texture_unit_cases _ _ _ _ _ _ ha with ⟨c, hcg, hok⟩ | hl | hfree
    · have hltl : s.unit < ctxt.state.texture_units.length := by
        by_contra hcon
        rw [List.get?_eq_none.mpr (by omega)] at hcg
        cases hcg
      obtain ⟨ht, hor⟩ := hok
      have hsam : c.sampler = (resolve_sampler samplers0 sb).1 := by
        rcases hor with hsam | hfree2
        · exact hsam
        · rw [hused] at hfree2; cases hfree2
      have hgd : (extend_units ctxt.state.texture_units s.unit).getD s.unit
          TextureUnit.dflt = (⟨texture, (resolve_sampler samplers0 sb).1⟩ : TextureUnit) := by
        rw [extend_units_of_lt _ _ hltl]
        rw [List.getD_eq_getElem?_getD, ← List.get?_eq_getElem?, hcg]
        rw [← ht, ← hsam]
        rfl
      obtain ⟨hctxt, hcalls⟩ := hnosync hgd
      refine ⟨?_, hcalls⟩
      rw [hctxt]
      exact extend_units_of_lt _ _ hltl
    · exact absurd (hinv _ hused) (by omega)
    · rw [hused] at hfree; cases hfree

/-- Witness for C3 at concrete inputs: (1) a full table `[⟨1,0⟩]` with limit 1
and an exhausted bitsfield panics on texture 2; (2) the fresh bind of texture
5 chose unit 0 below limit 2; (3) re-requesting the reserved combination
(texture 5, sampler 1) at reserved unit 0 leaves the table untouched and only
programs the location. -/
theorem capacity_exhaustion_fatal_witness :
    bind_texture_uniform ⟨⟨[⟨1, 0⟩], 0⟩, ⟨1, 8⟩, true, true⟩ ⟨[], 1⟩ 2 none 0
      ⟨1, [0]⟩ TextureTarget.texture2d =
      Res.fatal "Not enough texture units available"
    ∧ (0 : Nat) < 2
    ∧ ([(⟨5, 1⟩ : TextureUnit)] = [⟨5, 1⟩]
       ∧ [GlCall.SetUniform 0 (RawUniformValue.SignedInt 0)] =
           [GlCall.SetUniform 0 (RawUniformValue.SignedInt 0)]) := by
  refine ⟨?_, ?_, ?_⟩
  · refine capacity_exhaustion_fatal.1 ⟨⟨[⟨1, 0⟩], 0⟩, ⟨1, 8⟩, true, true⟩ ⟨[], 1⟩ 2 none 0
      ⟨1, [0]⟩ TextureTarget.texture2d ?_ (by decide) (by decide)
    intro j c hjc
    cases j with
    | zero => cases hjc; decide
    | succ k => cases hjc
  · exact capacity_exhaustion_fatal.2.1 ⟨⟨[], 0⟩, ⟨2, 2⟩, true, true⟩ ⟨[], 1⟩ 5 none 0
      (Bitsfield.new 2) TextureTarget.texture2d
      ⟨⟨⟨[⟨5, 0⟩], 0⟩, ⟨2, 2⟩, true, true⟩, ⟨[], 1⟩, ⟨2, [0]⟩,
       [GlCall.SetUniform 0 (RawUniformValue.SignedInt 0),
        GlCall.BindTexture TextureTarget.texture2d 5], 0⟩ (by rfl)
  · refine capacity_exhaustion_fatal.2.2.1 ⟨⟨[⟨5, 1⟩], 0⟩, ⟨2, 2⟩, true, true⟩
      ⟨[(1, 1)], 2⟩ 5 (some 1) 0 ⟨2, [0]⟩ TextureTarget.texture2d
      ⟨⟨⟨[⟨5, 1⟩], 0⟩, ⟨2, 2⟩, true, true⟩, ⟨[(1, 1)], 2⟩, ⟨2, [0, 0]⟩,
       [GlCall.SetUniform 0 (RawUniformValue.SignedInt 0)], 0⟩ (by rfl) (by decide) ?_
    intro j hj
    simp only [Bitsfield.is_used, List.contains_cons, List.contains_nil,
      Bool.or_false, beq_iff_eq] at hj
    subst hj
    decide

/-- Splitting a pass at any point: the tail runs on the state the prefix
produced, and an error or panic in the prefix short-circuits. -/
theorem bind_uniforms_loop_append (program : Program) (usable : UniformValue → Nat → Bool)
    (l1 l2 : List (String × UniformValue)) (st0 : PassState) :
    bind_uniforms_loop program usable (l1 ++ l2) st0 =
      match bind_uniforms_loop program usable l1 st0 with
      | Res.ok st => bind_uniforms_loop program usable l2 st
      | Res.err e st => Res.err e st
      | Res.fatal m => Res.fatal m := by
  induction l1 generalizing st0 with
  | nil => rfl
  | cons a l1 ih =>
      obtain ⟨name, value⟩ := a
      simp only [List.cons_append, bind_uniforms_loop]
      cases process_value program usable st0 name value with
      | ok st1 => exact ih st1
      | err e st1 => rfl
      | fatal m => rfl

/-- An erroring `process_value` step never appends a fence: the state it
returns carries the incoming fence list. -/
theorem process_value_err_fences (program : Program) (usable : UniformValue → Nat → Bool)
    (st : PassState) (name : String) (value : UniformValue) (e : DrawError)
    (st2 : PassState) (h : process_value program usable st name value = Res.err e st2) :
    st2.fences = st.fences := by
  unfold process_value at h
  cases hu : program.get_uniform name with
  | some uniform =>
      rw [hu] at h
      dsimp only at h
      split_ifs at h
      · cases hb : bind_uniform st.ctxt st.samplers value uniform.location
            st.texture_bind_points name with
        | ok s => rw [hb] at h; cases h
        | err e1 s => rw [hb] at h; injection h with _ h; rw [← h]
        | fatal m => rw [hb] at h; cases h
      · injection h with _ h; rw [← h]
  | none =>
      rw [hu] at h
      dsimp only at h
      cases hb1 : program.uniform_blocks.lookup name with
      | some block =>
          rw [hb1] at h
          dsimp only at h
          cases hb : bind_uniform_block value block st.uniform_buffer_bind_points name with
          | ok a => obtain ⟨f, bps, calls⟩ := a; rw [hb] at h; cases h
          | err e1 a => obtain ⟨f, bps, calls⟩ := a; rw [hb] at h; injection h with _ h; rw [← h]
          | fatal m => rw [hb] at h; cases h
      | none =>
          rw [hb1] at h
          dsimp only at h
          cases hb2 : program.shader_storage_blocks.lookup name with
          | some block =>
              rw [hb2] at h
              dsimp only at h
              cases hb : bind_shared_storage_block value block
                  st.shared_storage_buffer_bind_points name with
              | ok a => obtain ⟨f, bps, calls⟩ := a; rw [hb] at h; cases h
              | err e1 a => obtain ⟨f, bps, calls⟩ := a; rw [hb] at h; injection h with _ h; rw [← h]
              | fatal m => rw [hb] at h; cases h
          | none =>
              rw [hb2] at h
              dsimp only at h
              cases h

/-- C6: a named value matching a plain reflected uniform (no array size) whose
value fails the usability check against the reflected type makes the pass
return `UniformTypeMismatch` carrying that name and the reflected type,
process no further values, and mutate nothing for that value — the returned
state is exactly the state the preceding values produced. -/
theorem type_mismatch_stops_pass
    (program : Program) (usable : UniformValue → Nat → Bool)
    (values_before : List (String × UniformValue)) (name : String)
    (value : UniformValue) (rest : List (String × UniformValue))
    (ctxt : Context) (samplers : SamplerCache) (st : PassState) (uniform : Uniform)
    (hpre : bind_uniforms_loop program usable values_before
              (initial_pass_state ctxt samplers) = Res.ok st)
    (hu : program.get_uniform name = some uniform)
    (hsize : uniform.size = none)
    (husable : usable value uniform.ty = false) :
    bind_uniforms (values_before ++ (name, value) :: rest) program usable ctxt samplers =
      Res.err (DrawError.UniformTypeMismatch name uniform.ty) st := by
  unfold bind_uniforms
  rw [bind_uniforms_loop_append, hpre]
  simp [bind_uniforms_loop, process_value, hu, hsize, husable]

/-- Witness for C6 at a concrete input: one value of the wrong type for the
only reflected uniform fails the whole pass with the initial state intact. -/
theorem type_mismatch_stops_pass_witness :
    bind_uniforms ([] ++ ("u", UniformValue.SignedInt 0) :: [("v", UniformValue.Float 1)])
      ⟨[("u", ⟨1, 0, none⟩)], [], []⟩ (fun _ _ => false)
      ⟨⟨[], 0⟩, ⟨2, 2⟩, true, true⟩ ⟨[], 1⟩ =
      Res.err (DrawError.UniformTypeMismatch "u" 1)
        (initial_pass_state ⟨⟨[], 0⟩, ⟨2, 2⟩, true, true⟩ ⟨[], 1⟩) :=
  type_mismatch_stops_pass ⟨[("u", ⟨1, 0, none⟩)], [], []⟩ (fun _ _ => false)
    [] "u" (UniformValue.SignedInt 0) [("v", UniformValue.Float 1)]
    ⟨⟨[], 0⟩, ⟨2, 2⟩, true, true⟩ ⟨[], 1⟩
    (initial_pass_state ⟨⟨[], 0⟩, ⟨2, 2⟩, true, true⟩ ⟨[], 1⟩)
    ⟨1, 0, none⟩ (by rfl) (by rfl) (by rfl) (by rfl)

/-- C7: values are processed in the supplied order and the first erroring step
decides the pass: the remaining values are skipped, the error is returned with
the state as mutated so far (everything bound before the error stays bound —
no rollback), and the erroring step appends no fence. -/
theorem first_error_aborts
    (program : Program) (usable : UniformValue → Nat → Bool)
    (values_before : List (String × UniformValue)) (name : String)
    (value : UniformValue) (rest : List (String × UniformValue))
    (ctxt : Context) (samplers : SamplerCache) (st st2 : PassState) (e : DrawError)
    (hpre : bind_uniforms_loop program usable values_before
              (initial_pass_state ctxt samplers) = Res.ok st)
    (hstep : process_value program usable st name value = Res.err e st2) :
    bind_uniforms (values_before ++ (name, value) :: rest) program usable ctxt samplers =
      Res.err e st2
    ∧ st2.fences = st.fences := by
  constructor
  · unfold bind_uniforms
    rw [bind_uniforms_loop_append, hpre]
    simp only [bind_uniforms_loop, hstep]
  · exact process_value_err_fences program usable st name value e st2 hstep

/-- Witness for C7 at a concrete input: the first value errs with a type
mismatch; the second value is never processed and no fence is appended. -/
theorem first_error_aborts_witness :
    bind_uniforms ([] ++ ("u", UniformValue.SignedInt 0) :: [("v", UniformValue.Float 1)])
      ⟨[("u", ⟨1, 0, none⟩)], [], []⟩ (fun _ _ => false)
      ⟨⟨[], 0⟩, ⟨2, 2⟩, true, true⟩ ⟨[], 1⟩ =
      Res.err (DrawError.UniformTypeMismatch "u" 1)
        (initial_pass_state ⟨⟨[], 0⟩, ⟨2, 2⟩, true, true⟩ ⟨[], 1⟩)
    ∧ (initial_pass_state ⟨⟨[], 0⟩, ⟨2, 2⟩, true, true⟩ ⟨[], 1⟩).fences =
        (initial_pass_state ⟨⟨[], 0⟩, ⟨2, 2⟩, true, true⟩ ⟨[], 1⟩).fences :=
  first_error_aborts ⟨[("u", ⟨1, 0, none⟩)], [], []⟩ (fun _ _ => false)
    [] "u" (UniformValue.SignedInt 0) [("v", UniformValue.Float 1)]
    ⟨⟨[], 0⟩, ⟨2, 2⟩, true, true⟩ ⟨[], 1⟩
    (initial_pass_state ⟨⟨[], 0⟩, ⟨2, 2⟩, true, true⟩ ⟨[], 1⟩)
    (initial_pass_state ⟨⟨[], 0⟩, ⟨2, 2⟩, true, true⟩ ⟨[], 1⟩)
    (DrawError.UniformTypeMismatch "u" 1) (by rfl) (by rfl)

/-- C8: a block value whose layout-validation closure rejects the block's
reflected layout yields `UniformBlockLayoutMismatch` with that name from both
block binders, and the returned bitsfield and call trace show that no bind
point was consumed and no GPU call was issued. -/
theorem layout_mismatch_no_bind
    (buffer : Buffer) (layout : UniformBlock → Bool) (block : UniformBlock)
    (bp : Bitsfield) (name : String) (h : layout block = false) :
    bind_uniform_block (UniformValue.Block buffer layout) block bp name =
      Res.err (DrawError.UniformBlockLayoutMismatch name) (none, bp, [])
    ∧ bind_shared_storage_block (UniformValue.Block buffer layout) block bp name =
      Res.err (DrawError.UniformBlockLayoutMismatch name) (none, bp, []) := by
  constructor
  · simp [bind_uniform_block, h]
  · simp [bind_shared_storage_block, h]

/-- Witness for C8 at a concrete input: an always-rejecting layout closure. -/
theorem layout_mismatch_no_bind_witness :
    bind_uniform_block (UniformValue.Block ⟨1, 0, none⟩ (fun _ => false)) ⟨0, 0⟩
      (Bitsfield.new 2) "b" =
      Res.err (DrawError.UniformBlockLayoutMismatch "b") (none, Bitsfield.new 2, [])
    ∧ bind_shared_storage_block (UniformValue.Block ⟨1, 0, none⟩ (fun _ => false)) ⟨0, 0⟩
      (Bitsfield.new 2) "b" =
      Res.err (DrawError.UniformBlockLayoutMismatch "b") (none, Bitsfield.new 2, []) :=
  layout_mismatch_no_bind ⟨1, 0, none⟩ (fun _ => false) ⟨0, 0⟩ (Bitsfield.new 2) "b" (by rfl)

/-- C9: a name matching no reflected uniform, no uniform block and no
shared-storage block is silently skipped: the pass on `(name, value) :: rest`
is literally the pass on `rest` from the same state — no error, no state
change. -/
theorem unmatched_name_is_noop
    (program : Program) (usable : UniformValue → Nat → Bool) (name : String)
    (value : UniformValue) (rest : List (String × UniformValue)) (st : PassState)
    (h1 : program.get_uniform name = none)
    (h2 : program.uniform_blocks.lookup name = none)
    (h3 : program.shader_storage_blocks.lookup name = none) :
    bind_uniforms_loop program usable ((name, value) :: rest) st =
      bind_uniforms_loop program usable rest st := by
  simp only [bind_uniforms_loop, process_value, h1, h2, h3]

/-- Witness for C9 at a concrete input: an unreflected name against an empty
program is a no-op. -/
theorem unmatched_name_is_noop_witness :
    bind_uniforms_loop ⟨[], [], []⟩ (fun _ _ => true)
      [("x", UniformValue.Float 1)]
      (initial_pass_state ⟨⟨[], 0⟩, ⟨2, 2⟩, true, true⟩ ⟨[], 1⟩) =
    bind_uniforms_loop ⟨[], [], []⟩ (fun _ _ => true) []
      (initial_pass_state ⟨⟨[], 0⟩, ⟨2, 2⟩, true, true⟩ ⟨[], 1⟩) :=
  unmatched_name_is_noop ⟨[], [], []⟩ (fun _ _ => true) "x" (UniformValue.Float 1) []
    (initial_pass_state ⟨⟨[], 0⟩, ⟨2, 2⟩, true, true⟩ ⟨[], 1⟩)
    (by rfl) (by rfl) (by rfl)

/-- C10: a negative reflected location makes `bind_uniform` abort fatally via
its leading assertion, before dispatching on the value kind — the outcome is
the same fatal for every value, so any value reaching the per-kind dispatch
has a nonnegative location. -/
theorem negative_location_fatal
    (ctxt : Context) (samplers : SamplerCache) (location : Int) (bp : Bitsfield)
    (name : String) (h : location < 0) :
    ∀ value, bind_uniform ctxt samplers value location bp name =
      Res.fatal "assertion failed: location >= 0" := by
  intro value
  unfold bind_uniform
  rw [if_pos h]

/-- Witness for C10 at a concrete input: location `-1` is fatal for a plain
scalar value. -/
theorem negative_location_fatal_witness :
    bind_uniform ⟨⟨[], 0⟩, ⟨2, 2⟩, true, true⟩ ⟨[], 1⟩ (UniformValue.SignedInt 3)
      (-1) (Bitsfield.new 2) "u" = Res.fatal "assertion failed: location >= 0" :=
  negative_location_fatal ⟨⟨[], 0⟩, ⟨2, 2⟩, true, true⟩ ⟨[], 1⟩ (-1) (Bitsfield.new 2)
    "u" (by decide) (UniformValue.SignedInt 3)

end GliumBind
